import Mathlib

/-!
Verification of the session-scoped versioned table store and its transform
modules (Data-Analyst MCP server).

The transform modules (`data_functions/cleaning.py`, `selection.py`,
`transformation.py`, `multi_table.py`, `config.py`) and the tool layer
(`data.py`) are embedded directly from the Python source.  The module
`data_functions/core.py` (Version Log, table registry, session store) is
imported by every transform module but is not part of the source tree; the
definitions for it below are modelled from the specification and are marked
as such in their doc comments.
-/

namespace DataMCP

/-- A materialized table: ordered column names plus a list of rows, each row a
list of cell values.  Cell values are kept as strings; none of the verified
properties depend on the arithmetic of cell contents. -/
structure DataFrame where
  columns : List String
  rows : List (List String)
deriving DecidableEq, Repr

/-- Modelled from the spec: `approx_size_bytes` is the "sum of serialized
snapshot sizes"; we use a simple positive measure of a snapshot's contents
(every serialized snapshot occupies at least one byte). -/
def DataFrame.sizeBytes (df : DataFrame) : Nat :=
  1 + df.columns.length + df.rows.foldr (fun r acc => r.length + acc) 0

/-- Audit entry describing one state transition; only the transform-family tag
is relevant to the verified properties. -/
structure OpRecord where
  kind : String
deriving DecidableEq, Repr

/-- Structural errors of the Version Log (spec section 7). -/
inductive VLError where
  | nothingToUndo
  | nothingToRedo
  | emptyHistory
deriving DecidableEq, Repr

/-- Modelled from the spec (`data_functions/core.py` is absent from the source
tree): the per-table Version Log, a linear history of snapshots with a cursor
and an operation-record trail. -/
structure VersionLog where
  history : List DataFrame
  cursor : Nat
  operations : List OpRecord
deriving DecidableEq, Repr

/-- Modelled from the spec: a fresh Version Log has `history = [initial]`,
`cursor = 0` and no operation records. -/
def VersionLog.init (s : DataFrame) : VersionLog :=
  { history := [s], cursor := 0, operations := [] }

/-- Modelled from the spec: `current()` returns `history[cursor]`. -/
def VersionLog.current (log : VersionLog) : Option DataFrame :=
  log.history[log.cursor]?

/-- Modelled from the spec: the snapshot half of `commit` — truncate `history`
to `cursor+1` (discarding the redo tail), append the new snapshot, advance the
cursor, and discard operation records beyond the new commit point.  This is the
part performed by `core.commit_dataframe`; the operation record is appended
separately by `core._record_operation`. -/
def VersionLog.commitSnap (log : VersionLog) (s : DataFrame) : VersionLog :=
  { history := log.history.take (log.cursor + 1) ++ [s],
    cursor := log.cursor + 1,
    operations := log.operations.take log.cursor }

/-- Modelled from the spec: append one operation record
(`core._record_operation`). -/
def VersionLog.recordOp (log : VersionLog) (op : OpRecord) : VersionLog :=
  { log with operations := log.operations ++ [op] }

/-- Modelled from the spec: `commit(new_snapshot, operation_record)` truncates,
appends the snapshot, advances the cursor, and appends the operation record. -/
def VersionLog.commit (log : VersionLog) (s : DataFrame) (op : OpRecord) : VersionLog :=
  (log.commitSnap s).recordOp op

/-- Modelled from the spec: `undo()` fails with `NothingToUndoError` if
`cursor == 0`, otherwise decrements the cursor and returns `history[cursor]`;
`history` keeps all entries. -/
def VersionLog.undo (log : VersionLog) : Except VLError (DataFrame × VersionLog) :=
  if log.cursor = 0 then
    .error VLError.nothingToUndo
  else
    match log.history[log.cursor - 1]? with
    | some s => .ok (s, { log with cursor := log.cursor - 1 })
    | none => .error VLError.emptyHistory

/-- Modelled from the spec: `redo()` fails with `NothingToRedoError` if the
cursor is at the last index of `history`, otherwise increments the cursor and
returns `history[cursor]`. -/
def VersionLog.redo (log : VersionLog) : Except VLError (DataFrame × VersionLog) :=
  match log.history[log.cursor + 1]? with
  | some s => .ok (s, { log with cursor := log.cursor + 1 })
  | none => .error VLError.nothingToRedo

/-- Modelled from the spec: the capacity policy drops only the oldest
snapshots when `history` exceeds the configured maximum length, shifting the
cursor accordingly and never dropping the entry at the current cursor. -/
def VersionLog.trim (log : VersionLog) (maxLen : Nat) : VersionLog :=
  let d := min (log.history.length - maxLen) log.cursor
  { log with history := log.history.drop d, cursor := log.cursor - d }

/-- The Version Log invariant from the spec: `0 <= cursor < len(history)`. -/
def VersionLog.WF (log : VersionLog) : Prop :=
  log.cursor < log.history.length

instance (log : VersionLog) : Decidable log.WF := by
  unfold VersionLog.WF; infer_instance

/-- Version Log states reachable by initialize, commit, successful undo,
successful redo, and capacity trim. -/
inductive Reachable : VersionLog → Prop where
  | init (s : DataFrame) : Reachable (VersionLog.init s)
  | commit {log : VersionLog} (s : DataFrame) (op : OpRecord) :
      Reachable log → Reachable (log.commit s op)
  | undo {log : VersionLog} {s : DataFrame} {log' : VersionLog} :
      Reachable log → log.undo = .ok (s, log') → Reachable log'
  | redo {log : VersionLog} {s : DataFrame} {log' : VersionLog} :
      Reachable log → log.redo = .ok (s, log') → Reachable log'
  | trim {log : VersionLog} (maxLen : Nat) :
      Reachable log → Reachable (log.trim maxLen)

/-! ### Session store (modelled from the spec; `core.py` is absent) -/

/-- Modelled from the spec: the state of one session — its table registry
(table name → Version Log) together with the configured per-session size
quota in bytes. -/
structure SessionState where
  tables : List (String × VersionLog)
  maxSessionSize : Nat
deriving DecidableEq, Repr

/-- Look a table's Version Log up in the session's registry. -/
def SessionState.lookupTable (st : SessionState) (tn : String) : Option VersionLog :=
  (st.tables.find? (fun p => p.1 == tn)).map Prod.snd

/-- Replace a table's Version Log in the session's registry. -/
def SessionState.setTable (st : SessionState) (tn : String) (log : VersionLog) :
    SessionState :=
  { st with tables := st.tables.map (fun p => if p.1 == tn then (p.1, log) else p) }

/-- Modelled from the spec: `approx_size_bytes` — the sum of serialized
snapshot sizes retained across all tables' histories. -/
def SessionState.sizeBytes (st : SessionState) : Nat :=
  st.tables.foldr
    (fun p acc => p.2.history.foldr (fun d a => d.sizeBytes + a) 0 + acc) 0

/-- Modelled from the spec: `core.get_table_data` fetches the current snapshot
of the named table, or `None` when the table is unknown. -/
def get_table_data (st : SessionState) (tn : String) : Option DataFrame :=
  (st.lookupTable tn).bind VersionLog.current

/-- Modelled from the spec: `core.commit_dataframe` pushes the new snapshot
through the Version Log's commit path (truncate the redo tail, append, advance
the cursor) and then checks the session size quota; a commit that would exceed
the quota is rejected and the log is rolled back to its pre-commit state
(`history`/`cursor` unchanged, the new snapshot discarded).  Returns whether
the commit succeeded, together with the resulting session state. -/
def commit_dataframe (st : SessionState) (tn : String) (df : DataFrame) :
    Bool × SessionState :=
  match st.lookupTable tn with
  | none => (false, st)
  | some log =>
    let st' := st.setTable tn (log.commitSnap df)
    if st.maxSessionSize < st'.sizeBytes then (false, st) else (true, st')

/-- Modelled from the spec: `core._record_operation` appends one operation
record to the named table's audit trail. -/
def record_operation (st : SessionState) (tn : String) (op : OpRecord) :
    SessionState :=
  match st.lookupTable tn with
  | none => st
  | some log => st.setTable tn (log.recordOp op)

/-! ### Structured tool results -/

/-- The structured success/failure dictionary returned by every transform;
only the fields referenced by the verified properties are kept (the
data-preview and count payload fields are omitted). -/
structure ToolResult where
  success : Bool
  error : Option String := none
  message : Option String := none
  session_id : Option String := none
  table_name : Option String := none
deriving DecidableEq, Repr

/-- `', '.join(...)` from Python. -/
def joinComma (l : List String) : String :=
  String.intercalate ", " l

/-- The failure result every transform returns when `get_table_data` yields
`None`: `Table '{table_name}' not found in session {session_id}`. -/
def tableNotFound (sid tn : String) : ToolResult :=
  { success := false
    error := some ("Table '" ++ tn ++ "' not found in session " ++ sid) }

/-! ### `data_functions/cleaning.py`: `drop_rows` -/

/-- `df.drop(df.index[indices])` from `cleaning.py`: resolve each integer
index against the row count (negative indices count from the end; an
out-of-range index raises, which the transform's outer handler turns into a
failure result), then remove the addressed rows. -/
def dropByIndices (df : DataFrame) (indices : List Int) : Except String DataFrame :=
  let n : Int := df.rows.length
  if indices.all (fun i => decide (-n ≤ i) && decide (i < n)) then
    let pos : List Nat := indices.map (fun i => if i < 0 then (n + i).toNat else i.toNat)
    .ok { df with
          rows := (df.rows.enum.filter (fun p => !pos.contains p.1)).map Prod.snd }
  else
    .error "positional indexers are out-of-bounds"

/-- The tuple of values a row takes on the `subset` columns, used as the
duplicate-detection key by `df.drop_duplicates(subset=...)`. -/
def rowKey (df : DataFrame) (subset : List String) (row : List String) : List String :=
  subset.map (fun c =>
    match df.columns.findIdx? (fun c' => c' == c) with
    | some i => row.getD i ""
    | none => "")

/-- Marks, front to back, which keys repeat an earlier key. -/
def dupMaskFirst : List (List String) → List (List String) → List Bool
  | _, [] => []
  | seen, k :: ks => seen.contains k :: dupMaskFirst (k :: seen) ks

/-- `df.drop_duplicates(subset=subset, keep=keep)` from `cleaning.py`:
an unknown subset column or an unrecognized `keep` value raises (turned into a
failure result by the outer handler); `keep="first"` keeps the first row of
each duplicate group, `keep="last"` the last. -/
def dropDuplicates (df : DataFrame) (subset : List String) (keep : String) :
    Except String DataFrame :=
  if subset.all (fun c => df.columns.contains c) then
    let keys := df.rows.map (rowKey df subset)
    if keep == "first" then
      let mask := dupMaskFirst [] keys
      .ok { df with rows := ((df.rows.zip mask).filter (fun p => !p.2)).map Prod.fst }
    else if keep == "last" then
      let mask := (dupMaskFirst [] keys.reverse).reverse
      .ok { df with rows := ((df.rows.zip mask).filter (fun p => !p.2)).map Prod.fst }
    else
      .error ("keep must be either \x22first\x22, \x22last\x22 or False")
  else
    .error "subset column not found"

/-- `df[~mask]` from `cleaning.py`: keep the rows whose mask entry is false. -/
def DataFrame.filterNotMask (df : DataFrame) (mask : List Bool) : DataFrame :=
  { df with rows := ((df.rows.zip mask).filter (fun p => !p.2)).map Prod.fst }

/-- The commit/record/return block shared verbatim by the committing
transforms: commit the new table through `core.commit_dataframe`; when the
commit reports success, record the operation and return the success
dictionary; when it reports failure, return the failure dictionary without
recording anything. -/
def finishCommit (st : SessionState) (session_id table_name : String)
    (df' : DataFrame) (op_type msg : String) : ToolResult × SessionState :=
  match commit_dataframe st table_name df' with
  | (true, st') =>
    ({ success := true
       message := some msg
       session_id := some session_id
       table_name := some table_name },
     record_operation st' table_name { kind := op_type })
  | (false, _) =>
    ({ success := false, error := some "Failed to save changes to session" }, st)

/-- The method-selection body of `cleaning.drop_rows`: pick the first
specified drop method (`indices`, then `condition`, then `subset`) and compute
the new table together with the operation-type tag, or the early-return
failure dictionary.  `evalCond` stands for the external `pandas.DataFrame.eval`
collaborator used by the `condition` branch: it maps a condition string and a
table to a boolean row mask or to an error. -/
def dropRowsStep (evalCond : String → DataFrame → Except String (List Bool))
    (df : DataFrame) (indices : Option (List Int)) (condition : Option String)
    (subset : Option (List String)) (keep : String) :
    Except ToolResult (DataFrame × String) :=
  match indices with
  | some idx =>
    match dropByIndices df idx with
    | .ok d => .ok (d, "drop_by_index")
    | .error e =>
      .error { success := false, error := some ("Failed to drop rows: " ++ e) }
  | none =>
    match condition with
    | some cond =>
      match evalCond cond df with
      | .ok mask => .ok (df.filterNotMask mask, "drop_by_condition")
      | .error e =>
        .error { success := false
                 error := some ("Invalid condition '" ++ cond ++ "': " ++ e) }
    | none =>
      match subset with
      | some sub =>
        match dropDuplicates df sub keep with
        | .ok d => .ok (d, "drop_duplicates")
        | .error e =>
          .error { success := false, error := some ("Failed to drop rows: " ++ e) }
      | none =>
        .error { success := false
                 error := some "Must specify one of: indices, condition, or subset" }

/-- `cleaning.drop_rows`: fetch the current snapshot, run the method
selection, then commit the new table through `core.commit_dataframe` and
record the operation only when the commit reports success. -/
def drop_rows (evalCond : String → DataFrame → Except String (List Bool))
    (st : SessionState) (session_id : String)
    (indices : Option (List Int)) (condition : Option String)
    (subset : Option (List String)) (keep : String) (table_name : String) :
    ToolResult × SessionState :=
  match get_table_data st table_name with
  | none => (tableNotFound session_id table_name, st)
  | some df =>
    match dropRowsStep evalCond df indices condition subset keep with
    | .error r => (r, st)
    | .ok (df', op_type) =>
      finishCommit st session_id table_name df' op_type
        ("Dropped " ++ toString (df.rows.length - df'.rows.length) ++ " rows")

/-! ### `data_functions/transformation.py`: `rename_columns` -/

/-- `df.rename(columns=mapping)`: map every column label through the mapping,
leaving unmapped labels unchanged; row data is untouched. -/
def DataFrame.renameCols (df : DataFrame) (mapping : List (String × String)) :
    DataFrame :=
  { df with
    columns := df.columns.map (fun c =>
      match mapping.find? (fun p => p.1 == c) with
      | some p => p.2
      | none => c) }

/-- `transformation.rename_columns`: fetch the current snapshot, fail naming
the mapping keys that are not current columns, otherwise rename, commit, and
record the operation only when the commit reports success. -/
def rename_columns (st : SessionState) (session_id : String)
    (mapping : List (String × String)) (table_name : String) :
    ToolResult × SessionState :=
  match get_table_data st table_name with
  | none => (tableNotFound session_id table_name, st)
  | some df =>
    let invalid_cols := (mapping.map Prod.fst).filter (fun c => !df.columns.contains c)
    if invalid_cols.isEmpty then
      finishCommit st session_id table_name (df.renameCols mapping) "rename_columns"
        ("Renamed " ++ toString mapping.length ++ " columns")
    else
      ({ success := false
         error := some ("Columns not found: " ++ joinComma invalid_cols) }, st)

/-! ### `data_functions/selection.py`: `select_columns` -/

/-- `df[columns]`: project the table onto the named columns, in the given
order. -/
def DataFrame.selectCols (df : DataFrame) (cols : List String) : DataFrame :=
  let pos := cols.filterMap (fun c => df.columns.findIdx? (fun c' => c' == c))
  { columns := cols, rows := df.rows.map (fun r => pos.map (fun i => r.getD i "")) }

/-- `df.drop(columns=columns)`: remove the named columns. -/
def DataFrame.dropCols (df : DataFrame) (cols : List String) : DataFrame :=
  let keepIdx := (df.columns.enum.filter (fun p => !cols.contains p.2)).map Prod.fst
  { columns := df.columns.filter (fun c => !cols.contains c),
    rows := df.rows.map (fun r => keepIdx.map (fun i => r.getD i "")) }

/-- `selection.select_columns`: fetch the current snapshot; in both the keep
and the drop branch fail naming the requested columns that are not current
columns; otherwise project or drop, commit, and record the operation only when
the commit reports success. -/
def select_columns (st : SessionState) (session_id : String)
    (columns : List String) (keep : Bool) (table_name : String) :
    ToolResult × SessionState :=
  match get_table_data st table_name with
  | none => (tableNotFound session_id table_name, st)
  | some df =>
    let invalid_cols := columns.filter (fun c => !df.columns.contains c)
    if invalid_cols.isEmpty then
      finishCommit st session_id table_name
        (if keep then df.selectCols columns else df.dropCols columns) "select_columns"
        ((if keep then "Kept " else "Dropped ") ++ toString columns.length ++ " columns")
    else
      ({ success := false
         error := some ("Columns not found: " ++ joinComma invalid_cols) }, st)

/-! ### `data_functions/multi_table.py`: placeholder operations -/

/-- `multi_table.merge_tables`: a placeholder that returns a fixed failure
dictionary without touching any session state. -/
def merge_tables (st : SessionState) (session_id : String)
    (left_table right_table how : String)
    (left_on right_on on_col new_table_name : Option String) :
    ToolResult × SessionState :=
  ({ success := false
     error := some "Table merging not yet implemented"
     session_id := some session_id }, st)

/-- `multi_table.concat_tables`: a placeholder that returns a fixed failure
dictionary without touching any session state. -/
def concat_tables (st : SessionState) (session_id : String)
    (tables : List String) (axis : Int) (join : String)
    (ignore_index : Bool) (new_table_name : Option String) :
    ToolResult × SessionState :=
  ({ success := false
     error := some "Table concatenation not yet implemented"
     session_id := some session_id }, st)

/-! ### `data.py`: the `redo_operation` MCP tool -/

/-- The `redo_operation` MCP tool in `data.py`.  The module first imports
`redo_operation` from `data_functions.core`, but the tool definition
`def redo_operation(...)` then rebinds that module-level name to the tool
function itself, so the call `redo_operation(session_id, table_name)` inside
the tool body resolves to the tool and recurses with no base case.  The `fuel`
argument models Python's recursion-depth limit: when it is exhausted the
interpreter raises `RecursionError`, which the innermost surviving `except`
handler converts into the tool's failure dictionary; that dictionary is then
returned unchanged through every outer frame. -/
def redo_operation_tool (fuel : Nat) (session_id table_name : String) : ToolResult :=
  match fuel with
  | 0 =>
    { success := false
      error := some "Failed to redo operation: maximum recursion depth exceeded" }
  | Nat.succ f => redo_operation_tool f session_id table_name

/-! ### `data_functions/transformation.py`: `apply_custom` string handling -/

/-- The keyword blocklist from `transformation.apply_custom`. -/
def dangerousKeywords : List String :=
  ["import", "exec", "eval", "__", "os", "sys", "file", "open"]

/-- The `allowed_operations` list defined in `transformation.apply_custom`.
The function body never consults it: no code path reads this list. -/
def allowedOperations : List String :=
  ["lambda x: x *", "lambda x: x +", "lambda x: x -", "lambda x: x /",
   "lambda x: abs(x)", "lambda x: x **", "lambda x: x %",
   "lambda x: x.astype", "lambda x: x.round", "lambda x: x.apply"]

/-- Whether `k` occurs as a contiguous run inside the second list. -/
def charsContain (k : List Char) : List Char → Bool
  | [] => k.isEmpty
  | b :: bs => k.isPrefixOf (b :: bs) || charsContain k bs

/-- Python's substring test `k in s`. -/
def strContains (s k : String) : Bool :=
  charsContain k.data s.data

/-- What `apply_custom` does with the user-supplied `function` string. -/
inductive CustomFnOutcome where
  | rejected (kw : String)
  | evalString (src : String)
deriving DecidableEq, Repr

/-- The function-string handling of `transformation.apply_custom`: the string
is scanned for the blocklisted keywords and, when none occurs as a substring,
it is passed verbatim to Python's `eval` and the resulting callable is applied
to the column. -/
def apply_custom_fn_path (function : String) : CustomFnOutcome :=
  match dangerousKeywords.find? (fun k => strContains function k) with
  | some k => CustomFnOutcome.rejected k
  | none => CustomFnOutcome.evalString function

/-! ### `data_functions/config.py`: the environment configuration surface -/

/-- The environment variables read by `config.py`, paired with the default
string passed to `os.getenv` (the empty default for the two Redis options). -/
def configOptions : List (String × String) :=
  [("INGESTION_API_URL", "https://data-assistant-m4kl.onrender.com"),
   ("REQUEST_TIMEOUT", "30"),
   ("REDIS_URL", ""),
   ("REDIS_TOKEN", ""),
   ("DEFAULT_TTL_MINUTES", "30"),
   ("MAX_SESSION_SIZE_MB", "100"),
   ("LOG_LEVEL", "INFO"),
   ("LOG_FORMAT", "%(asctime)s - %(name)s - %(levelname)s - %(message)s"),
   ("MCP_SERVER_NAME", "Data Assistant MCP Server"),
   ("MCP_SERVER_VERSION", "1.0.0"),
   ("ENABLE_HTTP_SYNC", "true"),
   ("ENABLE_REDIS_DIRECT", "false"),
   ("ENABLE_CACHE_IN_MEMORY", "true")]

/-- The names of the recognized environment options of `config.py`. -/
def configEnvVars : List String :=
  configOptions.map Prod.fst

/-! ### Concrete tables, logs and session states used by witnesses -/

/-- A small two-column table. -/
def sampleDf : DataFrame :=
  { columns := ["a", "b"], rows := [["1", "2"], ["3", "4"]] }

/-- `sampleDf` after dropping its first row. -/
def sampleDfDropped : DataFrame :=
  { columns := ["a", "b"], rows := [["3", "4"]] }

/-- A second small table, used as a committed snapshot. -/
def sampleDf2 : DataFrame :=
  { columns := ["a", "b"], rows := [["5", "6"]] }

/-- A session holding one table named `current` with a generous quota. -/
def sampleState : SessionState :=
  { tables := [("current", VersionLog.init sampleDf)], maxSessionSize := 1000000 }

/-- A session holding one table named `current` with a zero quota, so that
every commit attempt exceeds the session size limit and is rejected. -/
def quotaState : SessionState :=
  { tables := [("current", VersionLog.init sampleDf)], maxSessionSize := 0 }

/-- A two-entry log sitting at the first snapshot: redo has room to move. -/
def sampleRedoLog : VersionLog :=
  { history := [sampleDf, sampleDf2], cursor := 0, operations := [{ kind := "op1" }] }

/-- The spec's ten-row scenario table. -/
def scnDf10 : DataFrame := { columns := ["c"], rows := List.replicate 10 ["x"] }

/-- The scenario table after the drop commit (7 rows). -/
def scnDf7 : DataFrame := { columns := ["c"], rows := List.replicate 7 ["x"] }

/-- The scenario table after the rename commit (7 rows, renamed column). -/
def scnDf7r : DataFrame := { columns := ["k"], rows := List.replicate 7 ["x"] }

/-- The scenario table committed after the undo (5 rows). -/
def scnDf5 : DataFrame := { columns := ["c"], rows := List.replicate 5 ["x"] }

/-- Scenario: initialize with 10 rows, commit the 7-row drop, commit the
rename. -/
def scnLog2 : VersionLog :=
  ((VersionLog.init scnDf10).commit scnDf7 { kind := "drop_rows" }).commit
    scnDf7r { kind := "rename_columns" }

/-- The scenario log after the undo. -/
def scnLog2u : VersionLog :=
  { scnLog2 with cursor := 1 }

/-- The scenario log after committing the 5-row snapshot over the undone
rename. -/
def scnLog3 : VersionLog :=
  scnLog2u.commit scnDf5 { kind := "drop_rows" }

/-! ## Theorems -/

/-- Claim C1: the `redo_operation` MCP tool in `data.py` shadows the imported
core `redo_operation` and calls itself, so for every recursion budget the tool
returns a failure dictionary and never the incremented-cursor success result;
the spec-modelled core `redo` by contrast does increment the cursor and return
`history[cursor]` (and fails with `NothingToRedoError` exactly at the last
index), as the claim describes. -/
theorem c1_redo_tool_never_succeeds :
    (∀ (fuel : Nat) (session_id table_name : String),
       (redo_operation_tool fuel session_id table_name).success = false) ∧
    sampleRedoLog.redo
      = Except.ok (sampleDf2, { sampleRedoLog with cursor := 1 }) ∧
    VersionLog.redo { sampleRedoLog with cursor := 1 }
      = Except.error VLError.nothingToRedo := by
  refine ⟨?_, rfl, rfl⟩
  intro fuel
  induction fuel with
  | zero => intro sid tn; rfl
  | succ f ih => intro sid tn; exact ih sid tn

/-- Claim C2: `apply_custom` does evaluate the supplied string as dynamic
code.  A string such as `lambda x: globals()` passes the keyword blocklist and
is handed verbatim to Python's `eval`, even though it matches none of the
entries of the (never consulted) `allowed_operations` list; an innocuous
arithmetic lambda likewise reaches `eval` rather than a tag-selected safe
operation, and rejection happens only through the keyword blocklist. -/
theorem c2_apply_custom_runs_dynamic_code :
    apply_custom_fn_path "lambda x: globals()"
      = CustomFnOutcome.evalString "lambda x: globals()" ∧
    (allowedOperations.all
      (fun p => !(p.data.isPrefixOf "lambda x: globals()".data))) = true ∧
    apply_custom_fn_path "lambda x: x * 2"
      = CustomFnOutcome.evalString "lambda x: x * 2" ∧
    apply_custom_fn_path "import pandas" = CustomFnOutcome.rejected "import" := by
  exact ⟨by decide, by decide, by decide, by decide⟩

/-- Claim C8 (counterexample): the configuration surface of `config.py` does
not consist of exactly the four claimed options — it recognizes thirteen
environment variables, among them Redis and logging options outside the
claimed enumeration. -/
theorem c8_counterexample_config_surface :
    configEnvVars.length ≠ 4 ∧
    "REDIS_URL" ∈ configEnvVars ∧
    "LOG_LEVEL" ∈ configEnvVars := by
  exact ⟨by decide, by decide, by decide⟩

/-- Claim C8 (amended): `config.py` recognizes exactly thirteen environment
options: the ingestion API URL and request timeout, the Redis URL and token,
the session time-to-live in minutes (`DEFAULT_TTL_MINUTES`, default 30), the
maximum session size in megabytes — not bytes — (`MAX_SESSION_SIZE_MB`,
default 100), the logging level and format, the server name and version, and
the three sync/cache feature flags; no per-table maximum history length option
is recognized. -/
theorem c8_amended_config_surface :
    configEnvVars
      = ["INGESTION_API_URL", "REQUEST_TIMEOUT", "REDIS_URL", "REDIS_TOKEN",
         "DEFAULT_TTL_MINUTES", "MAX_SESSION_SIZE_MB", "LOG_LEVEL", "LOG_FORMAT",
         "MCP_SERVER_NAME", "MCP_SERVER_VERSION", "ENABLE_HTTP_SYNC",
         "ENABLE_REDIS_DIRECT", "ENABLE_CACHE_IN_MEMORY"] ∧
    ("DEFAULT_TTL_MINUTES", "30") ∈ configOptions ∧
    ("MAX_SESSION_SIZE_MB", "100") ∈ configOptions ∧
    "MAX_HISTORY_LENGTH" ∉ configEnvVars ∧
    "MAX_SESSION_SIZE_BYTES" ∉ configEnvVars ∧
    ("ENABLE_HTTP_SYNC", "true") ∈ configOptions ∧
    ("ENABLE_REDIS_DIRECT", "false") ∈ configOptions ∧
    ("ENABLE_CACHE_IN_MEMORY", "true") ∈ configOptions := by
  exact ⟨rfl, by decide, by decide, by decide, by decide, by decide, by decide,
    by decide⟩

/-- Claim C9: for every input and every session state, `merge_tables` and
`concat_tables` return the fixed not-yet-implemented failure dictionaries,
leave the session state untouched, and produce a result independent of the
session state (they never read, commit, or record any table state). -/
theorem c9_multi_table_placeholders :
    ∀ (st st2 : SessionState) (sid lt rt how : String)
      (lon ron onc ntn : Option String)
      (tables : List String) (axis : Int) (join : String) (ig : Bool)
      (ntn2 : Option String),
      merge_tables st sid lt rt how lon ron onc ntn
        = ({ success := false, error := some "Table merging not yet implemented",
             session_id := some sid }, st) ∧
      concat_tables st sid tables axis join ig ntn2
        = ({ success := false,
             error := some "Table concatenation not yet implemented",
             session_id := some sid }, st) ∧
      (merge_tables st sid lt rt how lon ron onc ntn).1
        = (merge_tables st2 sid lt rt how lon ron onc ntn).1 ∧
      (concat_tables st sid tables axis join ig ntn2).1
        = (concat_tables st2 sid tables axis join ig ntn2).1 := by
  intro st st2 sid lt rt how lon ron onc ntn tables axis join ig ntn2
  exact ⟨rfl, rfl, rfl, rfl⟩

/-- Claim C10: calling `drop_rows` on an existing table with `indices`,
`condition` and `subset` all unspecified returns the fixed failure dictionary
naming the three methods, and leaves the session state (hence the stored
table, its history and its operation trail) unchanged. -/
theorem c10_drop_rows_requires_a_method :
    ∀ (evalCond : String → DataFrame → Except String (List Bool))
      (st : SessionState) (session_id keep table_name : String) (df : DataFrame),
      get_table_data st table_name = some df →
      drop_rows evalCond st session_id none none none keep table_name
        = ({ success := false,
             error := some "Must specify one of: indices, condition, or subset" },
           st) := by
  intro evalCond st session_id keep table_name df h
  unfold drop_rows
  rw [h]
  rfl

/-- Witness for C10 at a concrete session holding table `current`. -/
theorem c10_drop_rows_requires_a_method_witness :
    drop_rows (fun _ _ => Except.error "e") sampleState "session_123" none none
        none "first" "current"
      = ({ success := false,
           error := some "Must specify one of: indices, condition, or subset" },
         sampleState) :=
  c10_drop_rows_requires_a_method (fun _ _ => Except.error "e") sampleState
    "session_123" "first" "current" sampleDf rfl

/-- Claim C7: when `rename_columns` is given a mapping whose keys include
columns absent from the current table, or `select_columns` is given absent
columns, the transform returns a failure result naming exactly the missing
columns and leaves the session state unchanged (no commit, no record). -/
theorem c7_missing_columns_rejected :
    (∀ (st : SessionState) (session_id : String)
       (mapping : List (String × String)) (table_name : String) (df : DataFrame),
       get_table_data st table_name = some df →
       (mapping.map Prod.fst).filter (fun c => !df.columns.contains c) ≠ [] →
       rename_columns st session_id mapping table_name
         = ({ success := false,
              error := some ("Columns not found: "
                ++ joinComma ((mapping.map Prod.fst).filter
                      (fun c => !df.columns.contains c))) }, st)) ∧
    (∀ (st : SessionState) (session_id : String) (columns : List String)
       (keep : Bool) (table_name : String) (df : DataFrame),
       get_table_data st table_name = some df →
       columns.filter (fun c => !df.columns.contains c) ≠ [] →
       select_columns st session_id columns keep table_name
         = ({ success := false,
              error := some ("Columns not found: "
                ++ joinComma (columns.filter (fun c => !df.columns.contains c))) },
            st)) := by
  constructor
  · intro st session_id mapping table_name df h hne
    have hfalse :
        ((mapping.map Prod.fst).filter (fun c => !df.columns.contains c)).isEmpty
          = false := by
      cases hl : (mapping.map Prod.fst).filter (fun c => !df.columns.contains c) with
      | nil => exact absurd hl hne
      | cons a as => rfl
    unfold rename_columns
    rw [h]
    simp only [hfalse, Bool.false_eq_true, if_false]
  · intro st session_id columns keep table_name df h hne
    have hfalse : (columns.filter (fun c => !df.columns.contains c)).isEmpty
        = false := by
      cases hl : columns.filter (fun c => !df.columns.contains c) with
      | nil => exact absurd hl hne
      | cons a as => rfl
    unfold select_columns
    rw [h]
    simp only [hfalse, Bool.false_eq_true, if_false]

/-- Witness for C7: renaming the absent column `zz` and selecting the absent
column `zz` on a concrete session both fail naming `zz` and leave the state
unchanged. -/
theorem c7_missing_columns_rejected_witness :
    rename_columns sampleState "session_123" [("zz", "w")] "current"
      = ({ success := false,
           error := some ("Columns not found: "
             ++ joinComma (([("zz", "w")].map Prod.fst).filter
                   (fun c => !sampleDf.columns.contains c))) }, sampleState) ∧
    select_columns sampleState "session_123" ["zz"] true "current"
      = ({ success := false,
           error := some ("Columns not found: "
             ++ joinComma (["zz"].filter
                   (fun c => !sampleDf.columns.contains c))) }, sampleState) :=
  ⟨c7_missing_columns_rejected.1 sampleState "session_123" [("zz", "w")]
      "current" sampleDf rfl (by decide),
   c7_missing_columns_rejected.2 sampleState "session_123" ["zz"] true
      "current" sampleDf rfl (by decide)⟩

/-- Claim C3: a failed commit leaves the session state — hence every table's
`history`, `cursor` and operation trail — exactly as before the attempt:
`commit_dataframe` returns the original state whenever it reports failure; the
shared commit/record block returns the failure dictionary and the original
state without recording an operation whenever `commit_dataframe` reports
failure; and every failing `drop_rows` call leaves the session state
unchanged. -/
theorem c3_failed_commit_preserves_state :
    (∀ (st : SessionState) (table_name : String) (df : DataFrame),
       (commit_dataframe st table_name df).1 = false →
       (commit_dataframe st table_name df).2 = st) ∧
    (∀ (st : SessionState) (session_id table_name : String) (df : DataFrame)
       (op_type msg : String),
       (commit_dataframe st table_name df).1 = false →
       finishCommit st session_id table_name df op_type msg
         = ({ success := false,
              error := some "Failed to save changes to session" }, st)) ∧
    (∀ (evalCond : String → DataFrame → Except String (List Bool))
       (st : SessionState) (session_id : String) (indices : Option (List Int))
       (condition : Option String) (subset : Option (List String))
       (keep table_name : String),
       (drop_rows evalCond st session_id indices condition subset keep
           table_name).1.success = false →
       (drop_rows evalCond st session_id indices condition subset keep
           table_name).2 = st) := by
  have part1 : ∀ (st : SessionState) (table_name : String) (df : DataFrame),
      (commit_dataframe st table_name df).1 = false →
      (commit_dataframe st table_name df).2 = st := by
    intro st table_name df h
    unfold commit_dataframe at h ⊢
    cases hl : st.lookupTable table_name with
    | none => rfl
    | some log =>
      rw [hl] at h
      dsimp only at h ⊢
      by_cases hq : st.maxSessionSize
          < (st.setTable table_name (log.commitSnap df)).sizeBytes
      · rw [if_pos hq]
      · rw [if_neg hq] at h
        exact absurd h (by simp)
  have part2 : ∀ (st : SessionState) (session_id table_name : String)
      (df : DataFrame) (op_type msg : String),
      (commit_dataframe st table_name df).1 = false →
      finishCommit st session_id table_name df op_type msg
        = ({ success := false,
             error := some "Failed to save changes to session" }, st) := by
    intro st session_id table_name df op_type msg h
    unfold finishCommit
    cases hc : commit_dataframe st table_name df with
    | mk b st2 =>
      rw [hc] at h
      cases b
      · rfl
      · exact absurd h (by simp)
  have hfin : ∀ (st : SessionState) (session_id table_name : String)
      (df : DataFrame) (op_type msg : String),
      (finishCommit st session_id table_name df op_type msg).1.success
        = (commit_dataframe st table_name df).1 := by
    intro st session_id table_name df op_type msg
    unfold finishCommit
    cases hc : commit_dataframe st table_name df with
    | mk b st2 => cases b <;> rfl
  refine ⟨part1, part2, ?_⟩
  intro evalCond st session_id indices condition subset keep table_name h
  unfold drop_rows at h ⊢
  cases hg : get_table_data st table_name with
  | none => rfl
  | some df =>
    rw [hg] at h
    dsimp only at h ⊢
    cases hs : dropRowsStep evalCond df indices condition subset keep with
    | error r => rfl
    | ok p =>
      rw [hs] at h
      cases p with
      | mk df' op_type =>
        dsimp only at h ⊢
        cases hb : (commit_dataframe st table_name df').1 with
        | false =>
          rw [part2 st session_id table_name df' op_type
            ("Dropped " ++ toString (df.rows.length - df'.rows.length) ++ " rows") hb]
        | true =>
          rw [hfin, hb] at h
          cases h

/-- Witness for C3 at a session whose quota is zero, so every commit attempt
is rejected: the rejected direct commit, the rejected commit/record block, and
a `drop_rows` call whose commit is rejected all leave the state unchanged. -/
theorem c3_failed_commit_preserves_state_witness :
    (commit_dataframe quotaState "current" sampleDf2).2 = quotaState ∧
    finishCommit quotaState "session_123" "current" sampleDf2 "op" "msg"
      = ({ success := false,
           error := some "Failed to save changes to session" }, quotaState) ∧
    (drop_rows (fun _ _ => Except.error "e") quotaState "session_123"
        (some [(0 : Int)]) none none "first" "current").2 = quotaState :=
  ⟨c3_failed_commit_preserves_state.1 quotaState "current" sampleDf2 (by decide),
   c3_failed_commit_preserves_state.2.1 quotaState "session_123" "current"
     sampleDf2 "op" "msg" (by decide),
   c3_failed_commit_preserves_state.2.2 (fun _ _ => Except.error "e") quotaState
     "session_123" (some [(0 : Int)]) none none "first" "current" (by decide)⟩

/-! ### Version Log invariants and algebra (helper lemmas) -/

theorem lt_length_of_getElem?_eq_some {α : Type} {l : List α} {n : Nat} {a : α}
    (h : l[n]? = some a) : n < l.length := by
  by_contra hn
  rw [List.getElem?_eq_none (Nat.le_of_not_lt hn)] at h
  cases h

theorem commit_wf {log : VersionLog} (h : log.WF) (s : DataFrame)
    (op : OpRecord) : (log.commit s op).WF := by
  unfold VersionLog.WF at *
  unfold VersionLog.commit VersionLog.commitSnap VersionLog.recordOp
  simp only [List.length_append, List.length_take, List.length_cons,
    List.length_nil]
  omega

theorem undo_wf {log : VersionLog} {s : DataFrame} {log' : VersionLog}
    (h : log.undo = .ok (s, log')) : log'.WF := by
  unfold VersionLog.undo at h
  by_cases h0 : log.cursor = 0
  · rw [if_pos h0] at h
    cases h
  · rw [if_neg h0] at h
    cases he : log.history[log.cursor - 1]? with
    | none => rw [he] at h; cases h
    | some s' =>
      rw [he] at h
      cases h
      exact lt_length_of_getElem?_eq_some he

theorem redo_wf {log : VersionLog} {s : DataFrame} {log' : VersionLog}
    (h : log.redo = .ok (s, log')) : log'.WF := by
  unfold VersionLog.redo at h
  cases he : log.history[log.cursor + 1]? with
  | none => rw [he] at h; cases h
  | some s' =>
    rw [he] at h
    cases h
    exact lt_length_of_getElem?_eq_some he

theorem trim_wf {log : VersionLog} (h : log.WF) (maxLen : Nat) :
    (log.trim maxLen).WF := by
  unfold VersionLog.WF at *
  unfold VersionLog.trim
  simp only [List.length_drop]
  omega

theorem reachable_wf : ∀ log : VersionLog, Reachable log → log.WF := by
  intro log h
  induction h with
  | init s => exact Nat.zero_lt_one
  | commit s op _ ih => exact commit_wf ih s op
  | undo _ hu _ => exact undo_wf hu
  | redo _ hr _ => exact redo_wf hr
  | trim maxLen _ ih => exact trim_wf ih maxLen

theorem trim_current (log : VersionLog) (maxLen : Nat) :
    (log.trim maxLen).current = log.current := by
  unfold VersionLog.trim VersionLog.current
  dsimp only
  rw [List.getElem?_drop]
  congr 1
  omega

/-- Claim C6: every Version Log state reachable by initialize, commit,
successful undo, successful redo and capacity trims satisfies the invariant
`cursor < len(history)`; and a capacity trim removes exactly a prefix of the
oldest snapshots, shifts the cursor by the removed count, preserves the entry
at the current cursor, and preserves the invariant. -/
theorem c6_reachable_invariant_and_trim :
    ∀ log : VersionLog, Reachable log →
      log.cursor < log.history.length ∧
      ∀ maxLen : Nat,
        (log.trim maxLen).history
            = log.history.drop (min (log.history.length - maxLen) log.cursor) ∧
        (log.trim maxLen).cursor
            = log.cursor - min (log.history.length - maxLen) log.cursor ∧
        (log.trim maxLen).current = log.current ∧
        (log.trim maxLen).cursor < (log.trim maxLen).history.length := by
  intro log h
  refine ⟨reachable_wf log h, fun maxLen => ⟨rfl, rfl, trim_current log maxLen,
    trim_wf (reachable_wf log h) maxLen⟩⟩

/-- Witness for C6 at the concrete reachable log obtained by initializing
with `sampleDf` and committing `sampleDfDropped`. -/
theorem c6_reachable_invariant_and_trim_witness :
    ((VersionLog.init sampleDf).commit sampleDfDropped { kind := "drop_rows" }).cursor
        < ((VersionLog.init sampleDf).commit sampleDfDropped
            { kind := "drop_rows" }).history.length ∧
    (((VersionLog.init sampleDf).commit sampleDfDropped
        { kind := "drop_rows" }).trim 1).current
      = ((VersionLog.init sampleDf).commit sampleDfDropped
          { kind := "drop_rows" }).current := by
  have h := c6_reachable_invariant_and_trim
    ((VersionLog.init sampleDf).commit sampleDfDropped { kind := "drop_rows" })
    (Reachable.commit sampleDfDropped { kind := "drop_rows" }
      (Reachable.init sampleDf))
  exact ⟨h.1, (h.2 1).2.2.1⟩

/-- Claim C4: committing a snapshot `S` and then performing undo followed by
redo with no intervening commit returns to a state whose `current()` is
exactly `S`: the undo yields the pre-commit current snapshot, the redo yields
`S` again together with the exact post-commit log. -/
theorem c4_undo_redo_round_trip :
    ∀ (log : VersionLog) (S : DataFrame) (op : OpRecord), log.WF →
      ∃ (prev : DataFrame) (log₁ : VersionLog),
        log.current = some prev ∧
        (log.commit S op).undo = Except.ok (prev, log₁) ∧
        log₁.redo = Except.ok (S, log.commit S op) ∧
        (log.commit S op).current = some S := by
  intro log S op h
  have hw : log.cursor < log.history.length := h
  obtain ⟨c, hc⟩ : ∃ c, log.history[log.cursor]? = some c :=
    ⟨log.history[log.cursor], List.getElem?_eq_getElem h⟩
  have hlen : (log.history.take (log.cursor + 1)).length = log.cursor + 1 := by
    rw [List.length_take]; omega
  have hA : (log.history.take (log.cursor + 1) ++ [S])[log.cursor + 1]?
      = some S := by
    have hcat := List.getElem?_concat_length (log.history.take (log.cursor + 1)) S
    rwa [hlen] at hcat
  have hB : (log.history.take (log.cursor + 1) ++ [S])[log.cursor]? = some c := by
    rw [List.getElem?_append_left (by rw [hlen]; omega)]
    rw [List.getElem?_take_of_lt (Nat.lt_succ_self _)]
    exact hc
  refine ⟨c, { history := log.history.take (log.cursor + 1) ++ [S],
               cursor := log.cursor,
               operations := log.operations.take log.cursor ++ [op] },
    hc, ?_, ?_, ?_⟩
  · unfold VersionLog.commit VersionLog.commitSnap VersionLog.recordOp
      VersionLog.undo
    dsimp only
    rw [if_neg (Nat.succ_ne_zero _)]
    simp only [Nat.add_sub_cancel]
    rw [hB]
  · unfold VersionLog.redo
    dsimp only
    rw [hA]
    unfold VersionLog.commit VersionLog.commitSnap VersionLog.recordOp
    rfl
  · unfold VersionLog.commit VersionLog.commitSnap VersionLog.recordOp
      VersionLog.current
    dsimp only
    exact hA

/-- Witness for C4: committing `sampleDf2` over the initialized log, then
undoing and redoing, round-trips to `sampleDf2`. -/
theorem c4_undo_redo_round_trip_witness :
    ∃ (prev : DataFrame) (log₁ : VersionLog),
      (VersionLog.init sampleDf).current = some prev ∧
      ((VersionLog.init sampleDf).commit sampleDf2 { kind := "k" }).undo
        = Except.ok (prev, log₁) ∧
      log₁.redo = Except.ok (sampleDf2,
        (VersionLog.init sampleDf).commit sampleDf2 { kind := "k" }) ∧
      ((VersionLog.init sampleDf).commit sampleDf2 { kind := "k" }).current
        = some sampleDf2 :=
  c4_undo_redo_round_trip (VersionLog.init sampleDf) sampleDf2 { kind := "k" }
    (by decide)

/-- Claim C5: a commit truncates away everything beyond the new commit point —
after any commit the immediate redo fails with `NothingToRedoError` and the
history holds exactly the entries up to the old cursor plus the new snapshot;
in the spec's ten-row scenario the post-undo commit leaves a three-entry (not
four-entry) history, two operation records, a failing redo, and the five-row
snapshot as current. -/
theorem c5_commit_discards_redo_tail :
    (∀ (log : VersionLog) (S : DataFrame) (op : OpRecord), log.WF →
       (log.commit S op).redo = Except.error VLError.nothingToRedo ∧
       (log.commit S op).history.length = log.cursor + 2) ∧
    scnLog2.cursor = 2 ∧
    scnLog2.undo = Except.ok (scnDf7, scnLog2u) ∧
    scnLog3.history.length = 3 ∧
    scnLog3.operations.length = 2 ∧
    scnLog3.redo = Except.error VLError.nothingToRedo ∧
    scnLog3.current = some scnDf5 := by
  refine ⟨?_, rfl, rfl, rfl, rfl, rfl, rfl⟩
  intro log S op h
  have hw : log.cursor < log.history.length := h
  have hlen : (log.history.take (log.cursor + 1)).length = log.cursor + 1 := by
    rw [List.length_take]; omega
  constructor
  · unfold VersionLog.commit VersionLog.commitSnap VersionLog.recordOp
      VersionLog.redo
    dsimp only
    rw [List.getElem?_eq_none (by
      simp only [List.length_append, hlen, List.length_cons, List.length_nil]
      omega)]
  · unfold VersionLog.commit VersionLog.commitSnap VersionLog.recordOp
    simp only [List.length_append, hlen, List.length_cons, List.length_nil]

/-- Witness for C5: the general truncation law applied at the scenario's
post-undo log. -/
theorem c5_commit_discards_redo_tail_witness :
    (scnLog2u.commit scnDf5 { kind := "drop_rows" }).redo
      = Except.error VLError.nothingToRedo ∧
    (scnLog2u.commit scnDf5 { kind := "drop_rows" }).history.length
      = scnLog2u.cursor + 2 :=
  c5_commit_discards_redo_tail.1 scnLog2u scnDf5 { kind := "drop_rows" }
    (by decide)

end DataMCP
